import Mathlib

/-!
Shallow embedding of the `hctx` package of the hishtory client
(`client/hctx/hctx.go`): configuration load/save, local sqlite bootstrap,
the typed context carrier, and the logger construction constants.

Filesystem and database effects are made explicit: fallible system calls
are driven by an environment record carrying each call's outcome, and the
filesystem is an association list from paths to file contents.
-/

namespace Hctx

/-- JSON values as produced and consumed by Go's encoding/json for the
configuration record (strings are held already unescaped). -/
inductive Json where
  | str (s : String)
  | bool (b : Bool)
  | int (n : Int)
  | arr (xs : List Json)
  | obj (fields : List (String × Json))
  | null

/-- From hctx.go: a custom column definition (`CustomColumnDefinition`). -/
structure CustomColumnDefinition where
  ColumnName : String
  ColumnCommand : String
deriving DecidableEq, Repr

/-- From hctx.go: the client configuration record (`ClientConfig`). Go
slices are modelled as lists (a nil slice and an empty slice coincide,
matching the `== nil || len == 0` test the code performs). -/
structure ClientConfig where
  UserSecret : String
  IsEnabled : Bool
  DeviceId : String
  LastSavedHistoryLine : String
  HaveMissedUploads : Bool
  MissedUploadTimestamp : Int
  HaveCompletedInitialImport : Bool
  ControlRSearchEnabled : Bool
  DisplayedColumns : List String
  CustomColumns : List CustomColumnDefinition
  IsOffline : Bool
  FilterDuplicateCommands : Bool
  TimestampFormat : String
deriving DecidableEq, Repr

/-- The Go zero value of `ClientConfig` (what `ClientConfig{}` denotes). -/
def zeroClientConfig : ClientConfig :=
  { UserSecret := ""
    IsEnabled := false
    DeviceId := ""
    LastSavedHistoryLine := ""
    HaveMissedUploads := false
    MissedUploadTimestamp := 0
    HaveCompletedInitialImport := false
    ControlRSearchEnabled := false
    DisplayedColumns := []
    CustomColumns := []
    IsOffline := false
    FilterDuplicateCommands := false
    TimestampFormat := "" }

/-- Go json.Marshal of a `CustomColumnDefinition`, at the JSON-value level. -/
def encodeCustomColumn (c : CustomColumnDefinition) : Json :=
  .obj [("column_name", .str c.ColumnName),
        ("column_command", .str c.ColumnCommand)]

/-- Go json.Marshal of a `ClientConfig`, at the JSON-value level: every
field is emitted under its struct tag, in declaration order. -/
def encodeClientConfig (c : ClientConfig) : Json :=
  .obj [
    ("user_secret", .str c.UserSecret),
    ("is_enabled", .bool c.IsEnabled),
    ("device_id", .str c.DeviceId),
    ("last_saved_history_line", .str c.LastSavedHistoryLine),
    ("have_missed_uploads", .bool c.HaveMissedUploads),
    ("missed_upload_timestamp", .int c.MissedUploadTimestamp),
    ("have_completed_initial_import", .bool c.HaveCompletedInitialImport),
    ("enable_control_r_search", .bool c.ControlRSearchEnabled),
    ("displayed_columns", .arr (c.DisplayedColumns.map .str)),
    ("custom_columns", .arr (c.CustomColumns.map encodeCustomColumn)),
    ("is_offline", .bool c.IsOffline),
    ("filter_duplicate_commands", .bool c.FilterDuplicateCommands),
    ("timestamp_format", .str c.TimestampFormat)]

/-- Field lookup in a JSON object, matching Go's by-tag field matching for
the objects this package writes (unique keys). -/
def lookupField (fields : List (String × Json)) (key : String) : Option Json :=
  match fields with
  | [] => none
  | (k, v) :: rest => if k = key then some v else lookupField rest key

/-- Go json.Unmarshal into a string: JSON null leaves the zero value. -/
def decodeString : Json → Option String
  | .str s => some s
  | .null => some ""
  | _ => none

/-- Go json.Unmarshal into a bool: JSON null leaves the zero value. -/
def decodeBool : Json → Option Bool
  | .bool b => some b
  | .null => some false
  | _ => none

/-- Go json.Unmarshal into an int64: JSON null leaves the zero value. -/
def decodeInt : Json → Option Int
  | .int n => some n
  | .null => some 0
  | _ => none

/-- Go json.Unmarshal of a JSON array into a []string, element by element. -/
def decodeStrings : List Json → Option (List String)
  | [] => some []
  | j :: rest =>
    match decodeString j, decodeStrings rest with
    | some s, some tl => some (s :: tl)
    | _, _ => none

/-- Go json.Unmarshal into a []string: null decodes to the nil slice. -/
def decodeStringList : Json → Option (List String)
  | .arr xs => decodeStrings xs
  | .null => some []
  | _ => none

/-- Decode one field of a struct: a missing key leaves the zero value. -/
def decodeField (fields : List (String × Json)) (key : String)
    (dec : Json → Option α) (zero : α) : Option α :=
  match lookupField fields key with
  | none => some zero
  | some j => dec j

/-- Go json.Unmarshal into a `CustomColumnDefinition`. -/
def decodeCustomColumn : Json → Option CustomColumnDefinition
  | .obj fields => do
    let n ← decodeField fields "column_name" decodeString ""
    let c ← decodeField fields "column_command" decodeString ""
    pure { ColumnName := n, ColumnCommand := c }
  | .null => some { ColumnName := "", ColumnCommand := "" }
  | _ => none

/-- Go json.Unmarshal of a JSON array into a []CustomColumnDefinition. -/
def decodeCustomColumns : List Json → Option (List CustomColumnDefinition)
  | [] => some []
  | j :: rest =>
    match decodeCustomColumn j, decodeCustomColumns rest with
    | some c, some tl => some (c :: tl)
    | _, _ => none

/-- Go json.Unmarshal into a []CustomColumnDefinition: null gives nil. -/
def decodeCustomColumnList : Json → Option (List CustomColumnDefinition)
  | .arr xs => decodeCustomColumns xs
  | .null => some []
  | _ => none

/-- Go json.Unmarshal of a JSON value into a `ClientConfig`: fields are
matched by tag, missing fields keep the zero value, a type mismatch is an
error, and a top-level null leaves the zero record. -/
def decodeClientConfig : Json → Option ClientConfig
  | .obj fields => do
    let userSecret ← decodeField fields "user_secret" decodeString ""
    let isEnabled ← decodeField fields "is_enabled" decodeBool false
    let deviceId ← decodeField fields "device_id" decodeString ""
    let lastSaved ← decodeField fields "last_saved_history_line" decodeString ""
    let missedUp ← decodeField fields "have_missed_uploads" decodeBool false
    let missedTs ← decodeField fields "missed_upload_timestamp" decodeInt 0
    let initialImport ← decodeField fields "have_completed_initial_import" decodeBool false
    let controlR ← decodeField fields "enable_control_r_search" decodeBool false
    let displayed ← decodeField fields "displayed_columns" decodeStringList []
    let custom ← decodeField fields "custom_columns" decodeCustomColumnList []
    let isOffline ← decodeField fields "is_offline" decodeBool false
    let filterDup ← decodeField fields "filter_duplicate_commands" decodeBool false
    let tsFormat ← decodeField fields "timestamp_format" decodeString ""
    pure { UserSecret := userSecret
           IsEnabled := isEnabled
           DeviceId := deviceId
           LastSavedHistoryLine := lastSaved
           HaveMissedUploads := missedUp
           MissedUploadTimestamp := missedTs
           HaveCompletedInitialImport := initialImport
           ControlRSearchEnabled := controlR
           DisplayedColumns := displayed
           CustomColumns := custom
           IsOffline := isOffline
           FilterDuplicateCommands := filterDup
           TimestampFormat := tsFormat }
  | .null => some zeroClientConfig
  | _ => none

/-- Contents of a file: either well-formed JSON or malformed bytes. -/
inductive FileContent where
  | json (j : Json)
  | malformed (raw : String)

/-- Go json.Unmarshal applied to raw file contents. -/
def unmarshalConfig : FileContent → Except String ClientConfig
  | .malformed _ => .error "invalid character"
  | .json j =>
    match decodeClientConfig j with
    | some c => .ok c
    | none => .error "cannot unmarshal"

/-- From hctx.go line 241: the default displayed columns. -/
def defaultDisplayedColumns : List String :=
  ["Hostname", "CWD", "Timestamp", "Runtime", "Exit Code", "Command"]

/-- From hctx.go line 244: the default timestamp format. -/
def defaultTimestampFormat : String := "Jan 2 2006 15:04:05 MST"

/-- The six-column default exactly as the specification words it, kept
separately so that it can be compared against the code's default list. -/
def specDefaultDisplayedColumns : List String :=
  ["Hostname", "CWD", "Timestamp", "Runtime", "ExitCode", "Command"]

/-- From hctx.go: `GetConfig`, given the outcome of `GetConfigContents`.
Returns the record together with the error value (`none` = nil error);
both error paths return the zero record, the success path fills the
defaults for `DisplayedColumns` and `TimestampFormat`. -/
def GetConfig (read : Except String FileContent) : ClientConfig × Option String :=
  match read with
  | .error e => (zeroClientConfig, some e)
  | .ok dat =>
    match unmarshalConfig dat with
    | .error e => (zeroClientConfig, some ("failed to parse config file: " ++ e))
    | .ok config =>
      let config1 :=
        if config.DisplayedColumns.isEmpty then
          { config with DisplayedColumns := defaultDisplayedColumns }
        else config
      let config2 :=
        if config1.TimestampFormat = "" then
          { config1 with TimestampFormat := defaultTimestampFormat }
        else config1
      (config2, none)

/-- Modelled from the spec: the tool's data directory under the user's
home (`data.GetHishtoryPath()`, defined in the data package which is
absent from the excerpt). -/
def GetHishtoryPath : String := ".hishtory"

/-- Modelled from the spec: the configuration file name inside the tool
directory (`data.CONFIG_PATH`, absent from the excerpt; the spec gives
`config.json`). -/
def CONFIG_PATH : String := "config.json"

/-- Modelled from the spec: the datastore file name inside the tool
directory (`data.DB_PATH`, absent from the excerpt). -/
def DB_PATH : String := "hishtory.db"

/-- Go's path.Join restricted to already-clean components: nonempty
components are joined with a slash. -/
def pathJoin (a b : String) : String :=
  if a = "" then b else if b = "" then a else a ++ "/" ++ b

/-- The fixed path of the configuration file for a given home directory
(`path.Join(homedir, data.GetHishtoryPath(), data.CONFIG_PATH)`). -/
def configPath (homedir : String) : String :=
  pathJoin (pathJoin homedir GetHishtoryPath) CONFIG_PATH

/-- A filesystem as a path-to-contents map; a later write shadows an
earlier one. -/
abbrev Fs : Type := List (String × FileContent)

/-- Read the contents at a path. -/
def Fs.read (fs : Fs) (p : String) : Option FileContent :=
  match fs with
  | [] => none
  | (q, c) :: rest => if p = q then some c else Fs.read rest p

/-- Write contents at a path (os.WriteFile). -/
def Fs.write (fs : Fs) (p : String) (c : FileContent) : Fs :=
  (p, c) :: fs

/-- Remove every entry at a path. -/
def Fs.remove (fs : Fs) (p : String) : Fs :=
  match fs with
  | [] => []
  | (q, c) :: rest =>
    if q = p then Fs.remove rest p else (q, c) :: Fs.remove rest p

/-- Atomic rename (os.Rename): the destination takes the source's
contents in one step and the source disappears. -/
def Fs.rename (fs : Fs) (src dst : String) : Fs :=
  match Fs.read fs src with
  | none => fs
  | some c => Fs.write (Fs.remove fs src) dst c

/-- Outcomes of the system calls `SetConfig` performs, in program order:
home-directory resolution, directory creation, the temp-file write and
the rename, plus the random token `uuid.NewRandom` yields and the bytes a
failed write leaves behind in the temporary file. -/
structure SetConfigEnv where
  homedir : Except String String
  mkdirErr : Option String
  writeErr : Option String
  truncatedContent : FileContent
  renameErr : Option String
  uuid : String

/-- Go json.Marshal of a `ClientConfig` as file contents (marshalling of
this struct cannot fail, so the error branch of SetConfig line 251 is
unreachable). -/
def marshalClientConfig (c : ClientConfig) : FileContent :=
  .json (encodeClientConfig c)

/-- From hctx.go: `SetConfig`, instrumented to return every successive
filesystem state it produces (so that an observer at any intermediate
point — including a crash between the temp write and the rename — can be
examined). A failed temp write may leave truncated bytes in the
temporary file; a failed rename leaves the temporary file in place. -/
def SetConfigTrace (env : SetConfigEnv) (fs : Fs) (config : ClientConfig) :
    Except String Unit × List Fs :=
  let serializedConfig := marshalClientConfig config
  match env.homedir with
  | .error e => (.error ("failed to retrieve homedir: " ++ e), [])
  | .ok homedir =>
    match env.mkdirErr with
    | some e => (.error ("failed to create hishtory dir: " ++ e), [])
    | none =>
      let cfgPath := configPath homedir
      let stagedConfigPath := cfgPath ++ ".tmp-" ++ env.uuid
      match env.writeErr with
      | some e =>
        (.error ("failed to write config: " ++ e),
         [Fs.write fs stagedConfigPath env.truncatedContent])
      | none =>
        let fs1 := Fs.write fs stagedConfigPath serializedConfig
        match env.renameErr with
        | some e =>
          (.error ("failed to replace config file with the updated version: " ++ e),
           [fs1])
        | none => (.ok (), [fs1, Fs.rename fs1 stagedConfigPath cfgPath])

/-- From hctx.go: `SetConfig` — result and final filesystem. -/
def SetConfig (env : SetConfigEnv) (fs : Fs) (config : ClientConfig) :
    Except String Unit × Fs :=
  let r := SetConfigTrace env fs config
  (r.1, r.2.getLastD fs)

/-- Outcome of the os.Stat call `InitConfig` performs on the config path. -/
inductive StatResult where
  | found
  | notExist
  | statError (e : String)

/-- From hctx.go: `InitConfig` — if the config file does not exist, save a
zero-valued record; if it exists, return the nil stat error unchanged;
any other stat error is returned as is. -/
def InitConfig (env : SetConfigEnv) (stat : StatResult) (fs : Fs) :
    Except String Unit × Fs :=
  match env.homedir with
  | .error e => (.error e, fs)
  | .ok _ =>
    match stat with
    | .notExist => SetConfig env fs zeroClientConfig
    | .found => (.ok (), fs)
    | .statError e => (.error e, fs)

/-- State of the local sqlite database: which tables and which indexes
exist. -/
structure DbState where
  tables : List String
  indexes : List String
deriving DecidableEq, Repr

/-- A freshly created datastore: no tables, no indexes. -/
def emptyDbState : DbState := { tables := [], indexes := [] }

/-- The opaque connection handle `OpenLocalSqliteDb` returns. -/
structure DbHandle where
  dsnPath : String
deriving DecidableEq, Repr

/-- Outcomes of the calls `OpenLocalSqliteDb` performs, in program order. -/
structure DbEnv where
  homedir : Except String String
  mkdirErr : Option String
  openErr : Option String
  dbErr : Option String
  pingErr : Option String
  migrateErr : Option String
  indexErr : Option String

/-- Modelled from the spec: gorm's AutoMigrate for the history-entry
record type (the gorm library is absent from the excerpt) — an idempotent
schema migration, safe to run on an already-current schema. -/
def autoMigrate (st : DbState) : DbState :=
  if "history_entries" ∈ st.tables then st
  else { st with tables := "history_entries" :: st.tables }

/-- Modelled from the spec: SQL `CREATE INDEX IF NOT EXISTS` (executed by
the embedded engine, absent from the excerpt) — creation is a no-op when
the index already exists. -/
def createIndexIfNotExists (st : DbState) (name : String) : DbState :=
  if name ∈ st.indexes then st else { st with indexes := name :: st.indexes }

/-- From hctx.go: `OpenLocalSqliteDb`. Failures of home-directory
resolution, directory creation, gorm.Open, db.DB() and Ping each return
early with an error; the results of `db.AutoMigrate(...)` and of the two
`db.Exec(...)` calls are discarded, so their failures leave the state
unchanged but do not affect the returned value. -/
def OpenLocalSqliteDb (env : DbEnv) (st : DbState) :
    Except String DbHandle × DbState :=
  match env.homedir with
  | .error e => (.error ("failed to get user's home directory: " ++ e), st)
  | .ok homedir =>
    match env.mkdirErr with
    | some e => (.error ("failed to make hishtory dir: " ++ e), st)
    | none =>
      match env.openErr with
      | some e => (.error ("failed to connect to the DB: " ++ e), st)
      | none =>
        match env.dbErr with
        | some e => (.error ("failed to get DB from gorm: " ++ e), st)
        | none =>
          match env.pingErr with
          | some e => (.error ("failed to ping DB: " ++ e), st)
          | none =>
            let st1 := if env.migrateErr.isSome then st else autoMigrate st
            let st2 :=
              if env.indexErr.isSome then st1
              else createIndexIfNotExists st1 "end_time_index"
            (.ok { dsnPath := pathJoin (pathJoin homedir GetHishtoryPath) DB_PATH },
             st2)

/-- A value stored in the context carrier: one of the three kinds the
package ever stores. -/
inductive CtxValue where
  | conf (c : ClientConfig)
  | db (h : DbHandle)
  | home (s : String)

/-- From hctx.go: the three private context keys. -/
def contextConfigKey : String := "config"

/-- From hctx.go: the context key for the database handle. -/
def contextDBKey : String := "db"

/-- From hctx.go: the context key for the home directory. -/
def contextHomedirKey : String := "homedir"

/-- Go's context: an immutable chain of frames; `withValue` layers a new
frame on its parent and never mutates it. -/
inductive Context where
  | background
  | withValue (parent : Context) (key : String) (v : CtxValue)

/-- Go's ctx.Value: the nearest binding of a key along the parent chain. -/
def Context.value : Context → String → Option CtxValue
  | .background, _ => none
  | .withValue parent k v, key => if key = k then some v else parent.value key

/-- From hctx.go: `WithConf`. -/
def WithConf (ctx : Context) (config : ClientConfig) : Context :=
  .withValue ctx contextConfigKey (.conf config)

/-- From hctx.go: `GetConf`; `none` models the panic on a missing value. -/
def GetConf (ctx : Context) : Option ClientConfig :=
  match ctx.value contextConfigKey with
  | some (.conf c) => some c
  | _ => none

/-- From hctx.go: `WithDb`. -/
def WithDb (ctx : Context) (db : DbHandle) : Context :=
  .withValue ctx contextDBKey (.db db)

/-- From hctx.go: `GetDb`; `none` models the panic on a missing value. -/
def GetDb (ctx : Context) : Option DbHandle :=
  match ctx.value contextDBKey with
  | some (.db h) => some h
  | _ => none

/-- From hctx.go: `WithHome`. -/
def WithHome (ctx : Context) (homedir : String) : Context :=
  .withValue ctx contextHomedirKey (.home homedir)

/-- From hctx.go: `GetHome`; `none` models the panic on a missing value. -/
def GetHome (ctx : Context) : Option String :=
  match ctx.value contextHomedirKey with
  | some (.home s) => some s
  | _ => none

/-- Configuration of the lumberjack rotating writer built by `GetLogger`. -/
structure LumberjackConfig where
  filename : String
  maxSizeMb : Nat
  maxBackups : Nat
  maxAgeDays : Nat
deriving DecidableEq, Repr

/-- Configuration of the logrus text formatter built by `GetLogger`. -/
structure TextFormatterConfig where
  timestampFormat : String
  fullTimestamp : Bool
deriving DecidableEq, Repr

/-- The logrus levels. -/
inductive LogLevel where
  | panicLevel | fatalLevel | errorLevel | warnLevel
  | infoLevel | debugLevel | traceLevel
deriving DecidableEq, Repr

/-- The observable configuration of the logger `GetLogger` constructs. -/
structure LoggerState where
  formatter : TextFormatterConfig
  level : LogLevel
  output : LumberjackConfig
deriving DecidableEq, Repr

/-- Go's time.RFC3339 layout constant. -/
def timeRFC3339 : String := "2006-01-02T15:04:05Z07:00"

/-- From hctx.go lines 46-60: the logger construction performed inside
the sync.Once body of `GetLogger`, given the resolved home directory. -/
def buildLogger (homedir : String) : LoggerState :=
  let lumberjackLogger : LumberjackConfig :=
    { filename := pathJoin (pathJoin homedir GetHishtoryPath) "hishtory.log"
      maxSizeMb := 1
      maxBackups := 10
      maxAgeDays := 30 }
  let logFormatter : TextFormatterConfig :=
    { timestampFormat := timeRFC3339, fullTimestamp := true }
  { formatter := logFormatter
    level := .infoLevel
    output := lumberjackLogger }

/-- From hctx.go: `GetConfigContents`, given the resolved home directory
and the filesystem (on a read failure the code additionally lists the
directory for diagnostics; only the failure itself is modelled). -/
def GetConfigContents (henv : Except String String) (fs : Fs) :
    Except String FileContent :=
  match henv with
  | .error e => .error ("failed to retrieve homedir: " ++ e)
  | .ok homedir =>
    match Fs.read fs (configPath homedir) with
    | some dat => .ok dat
    | none => .error "failed to read config file"

/-- An empty filesystem, used to instantiate the general theorems. -/
def emptyFs : Fs := []

/-- An environment in which every system call `SetConfig` performs
succeeds. -/
def okSetConfigEnv : SetConfigEnv :=
  { homedir := .ok "/home/user"
    mkdirErr := none
    writeErr := none
    truncatedContent := .malformed ""
    renameErr := none
    uuid := "f47ac10b-58cc-4372-a567-0e02b2c3d479" }

/-- An environment in which every system call `OpenLocalSqliteDb`
performs succeeds. -/
def okDbEnv : DbEnv :=
  { homedir := .ok "/home/user"
    mkdirErr := none
    openErr := none
    dbErr := none
    pingErr := none
    migrateErr := none
    indexErr := none }

/-- An environment in which only the schema migration fails. -/
def migrateFailEnv : DbEnv :=
  { homedir := .ok "/home/user"
    mkdirErr := none
    openErr := none
    dbErr := none
    pingErr := none
    migrateErr := some "migration failed"
    indexErr := none }

/-- A sample non-zero configuration record with nonempty
`DisplayedColumns` and `TimestampFormat`. -/
def exampleConfig : ClientConfig :=
  { zeroClientConfig with
      UserSecret := "secret"
      IsEnabled := true
      DeviceId := "device-1"
      DisplayedColumns := ["CWD"]
      TimestampFormat := "2006-01-02" }

theorem Fs.read_write (fs : Fs) (p q : String) (c : FileContent) :
    Fs.read (Fs.write fs p c) q = if q = p then some c else Fs.read fs q := by
  simp [Fs.read, Fs.write]

theorem string_ne_append_tmp (s u : String) : s ≠ s ++ ".tmp-" ++ u := by
  intro h
  have hl := congrArg String.length h
  rw [String.length_append, String.length_append] at hl
  have h5 : (".tmp-" : String).length = 5 := rfl
  omega

theorem read_write_ne (fs : Fs) (hd u : String) (c : FileContent) :
    Fs.read (Fs.write fs (configPath hd ++ ".tmp-" ++ u) c) (configPath hd)
      = Fs.read fs (configPath hd) := by
  rw [Fs.read_write]
  exact if_neg (string_ne_append_tmp (configPath hd) u)

theorem read_rename_staged (fs : Fs) (hd u : String) (c : FileContent) :
    Fs.read
      (Fs.rename (Fs.write fs (configPath hd ++ ".tmp-" ++ u) c)
        (configPath hd ++ ".tmp-" ++ u) (configPath hd)) (configPath hd)
      = some c := by
  have hr1 : Fs.read (Fs.write fs (configPath hd ++ ".tmp-" ++ u) c)
      (configPath hd ++ ".tmp-" ++ u) = some c := by
    rw [Fs.read_write]
    simp
  simp only [Fs.rename, hr1]
  rw [Fs.read_write]
  simp

theorem decodeStrings_encode (l : List String) :
    decodeStrings (l.map Json.str) = some l := by
  induction l with
  | nil => rfl
  | cons a tl ih => simp [decodeStrings, decodeString, ih]

theorem decodeCustomColumns_encode (l : List CustomColumnDefinition) :
    decodeCustomColumns (l.map encodeCustomColumn) = some l := by
  induction l with
  | nil => rfl
  | cons a tl ih =>
    simp [decodeCustomColumns, ih]
    rfl

theorem decode_encode (c : ClientConfig) :
    decodeClientConfig (encodeClientConfig c) = some c := by
  show Option.bind (decodeStrings (c.DisplayedColumns.map Json.str))
      (fun displayed =>
        Option.bind (decodeCustomColumns (c.CustomColumns.map encodeCustomColumn))
          (fun custom =>
            some { UserSecret := c.UserSecret
                   IsEnabled := c.IsEnabled
                   DeviceId := c.DeviceId
                   LastSavedHistoryLine := c.LastSavedHistoryLine
                   HaveMissedUploads := c.HaveMissedUploads
                   MissedUploadTimestamp := c.MissedUploadTimestamp
                   HaveCompletedInitialImport := c.HaveCompletedInitialImport
                   ControlRSearchEnabled := c.ControlRSearchEnabled
                   DisplayedColumns := displayed
                   CustomColumns := custom
                   IsOffline := c.IsOffline
                   FilterDuplicateCommands := c.FilterDuplicateCommands
                   TimestampFormat := c.TimestampFormat })) = some c
  rw [decodeStrings_encode, decodeCustomColumns_encode]
  rfl

theorem getConfig_ok_eq (j : Json) (stored : ClientConfig)
    (h : decodeClientConfig j = some stored) :
    GetConfig (.ok (.json j)) =
      ({ stored with
          DisplayedColumns :=
            if stored.DisplayedColumns.isEmpty then defaultDisplayedColumns
            else stored.DisplayedColumns
          TimestampFormat :=
            if stored.TimestampFormat = "" then defaultTimestampFormat
            else stored.TimestampFormat }, none) := by
  simp only [GetConfig, unmarshalConfig, h]
  by_cases hd : stored.DisplayedColumns.isEmpty <;>
    by_cases ht : stored.TimestampFormat = "" <;>
      simp [hd, ht]

theorem setConfig_ok (env : SetConfigEnv) (fs : Fs) (config : ClientConfig)
    (hd : String) (hh : env.homedir = .ok hd) (hm : env.mkdirErr = none)
    (hw : env.writeErr = none) (hr : env.renameErr = none) :
    (SetConfig env fs config).1 = .ok () ∧
    Fs.read (SetConfig env fs config).2 (configPath hd)
      = some (marshalClientConfig config) := by
  obtain ⟨eh, em, ew, et, er, eu⟩ := env
  obtain rfl : eh = .ok hd := hh
  obtain rfl : em = none := hm
  obtain rfl : ew = none := hw
  obtain rfl : er = none := hr
  refine ⟨rfl, ?_⟩
  show Fs.read
      (Fs.rename
        (Fs.write fs (configPath hd ++ ".tmp-" ++ eu) (marshalClientConfig config))
        (configPath hd ++ ".tmp-" ++ eu) (configPath hd)) (configPath hd)
    = some (marshalClientConfig config)
  have hr1 : Fs.read
      (Fs.write fs (configPath hd ++ ".tmp-" ++ eu) (marshalClientConfig config))
      (configPath hd ++ ".tmp-" ++ eu) = some (marshalClientConfig config) := by
    rw [Fs.read_write]
    simp
  simp only [Fs.rename, hr1]
  rw [Fs.read_write]
  simp

/-- C1: `SetConfig` serializes the record, writes it to a uniquely-named
temporary file next to the target, then renames the temporary file over
the target path; every intermediate filesystem state shows the target
path holding either the prior contents or the fully-written new record,
on success the target holds the new record, and on any failure the target
path's prior contents are unchanged. -/
theorem setConfig_atomic (env : SetConfigEnv) (fs : Fs) (config : ClientConfig)
    (hd : String) (hh : env.homedir = .ok hd) :
    (∀ fsMid ∈ (SetConfigTrace env fs config).2,
       Fs.read fsMid (configPath hd) = Fs.read fs (configPath hd) ∨
       Fs.read fsMid (configPath hd) = some (marshalClientConfig config)) ∧
    ((SetConfig env fs config).1 = .ok () →
       Fs.read (SetConfig env fs config).2 (configPath hd)
         = some (marshalClientConfig config)) ∧
    (∀ e, (SetConfig env fs config).1 = .error e →
       Fs.read (SetConfig env fs config).2 (configPath hd)
         = Fs.read fs (configPath hd)) := by
  obtain ⟨eh, em, ew, et, er, eu⟩ := env
  obtain rfl : eh = .ok hd := hh
  cases em with
  | some e =>
    refine ⟨?_, ?_, ?_⟩
    · intro fsMid hmem
      exact absurd hmem (List.not_mem_nil _)
    · intro h
      exact Except.noConfusion h
    · intro e2 _
      rfl
  | none =>
    cases ew with
    | some e =>
      refine ⟨?_, ?_, ?_⟩
      · intro fsMid hmem
        cases hmem with
        | head => exact Or.inl (read_write_ne fs hd eu et)
        | tail _ h2 => exact absurd h2 (List.not_mem_nil _)
      · intro h
        exact Except.noConfusion h
      · intro e2 _
        exact read_write_ne fs hd eu et
    | none =>
      cases er with
      | some e =>
        refine ⟨?_, ?_, ?_⟩
        · intro fsMid hmem
          cases hmem with
          | head => exact Or.inl (read_write_ne fs hd eu (marshalClientConfig config))
          | tail _ h2 => exact absurd h2 (List.not_mem_nil _)
        · intro h
          exact Except.noConfusion h
        · intro e2 _
          exact read_write_ne fs hd eu (marshalClientConfig config)
      | none =>
        refine ⟨?_, ?_, ?_⟩
        · intro fsMid hmem
          cases hmem with
          | head => exact Or.inl (read_write_ne fs hd eu (marshalClientConfig config))
          | tail _ h2 =>
            cases h2 with
            | head =>
              exact Or.inr (read_rename_staged fs hd eu (marshalClientConfig config))
            | tail _ h3 => exact absurd h3 (List.not_mem_nil _)
        · intro _
          exact read_rename_staged fs hd eu (marshalClientConfig config)
        · intro e2 h
          exact Except.noConfusion h

/-- Witness for C1, at an all-successful environment, the empty
filesystem and the zero record. -/
theorem setConfig_atomic_witness :
    (∀ fsMid ∈ (SetConfigTrace okSetConfigEnv emptyFs zeroClientConfig).2,
       Fs.read fsMid (configPath "/home/user")
         = Fs.read emptyFs (configPath "/home/user") ∨
       Fs.read fsMid (configPath "/home/user")
         = some (marshalClientConfig zeroClientConfig)) ∧
    ((SetConfig okSetConfigEnv emptyFs zeroClientConfig).1 = .ok () →
       Fs.read (SetConfig okSetConfigEnv emptyFs zeroClientConfig).2
           (configPath "/home/user")
         = some (marshalClientConfig zeroClientConfig)) ∧
    (∀ e, (SetConfig okSetConfigEnv emptyFs zeroClientConfig).1 = .error e →
       Fs.read (SetConfig okSetConfigEnv emptyFs zeroClientConfig).2
           (configPath "/home/user")
         = Fs.read emptyFs (configPath "/home/user")) :=
  setConfig_atomic okSetConfigEnv emptyFs zeroClientConfig "/home/user" rfl

/-- C4: saving a record with `SetConfig` and then loading it with
`GetConfig` returns the record unchanged in every field, except that an
empty `DisplayedColumns` comes back as the default six-column list and an
empty `TimestampFormat` comes back as the default pattern. -/
theorem setConfig_then_getConfig_roundtrip (env : SetConfigEnv) (fs : Fs)
    (r : ClientConfig) (hd : String) (hh : env.homedir = .ok hd)
    (hm : env.mkdirErr = none) (hw : env.writeErr = none)
    (hr : env.renameErr = none) :
    GetConfig (GetConfigContents env.homedir (SetConfig env fs r).2)
      = ({ r with
            DisplayedColumns :=
              if r.DisplayedColumns.isEmpty then defaultDisplayedColumns
              else r.DisplayedColumns
            TimestampFormat :=
              if r.TimestampFormat = "" then defaultTimestampFormat
              else r.TimestampFormat }, none) := by
  obtain ⟨hok, hread⟩ := setConfig_ok env fs r hd hh hm hw hr
  rw [hh]
  simp only [GetConfigContents, hread, marshalClientConfig]
  exact getConfig_ok_eq (encodeClientConfig r) r (decode_encode r)

/-- Witness for C4, at an all-successful environment and a sample
record. -/
theorem setConfig_then_getConfig_roundtrip_witness :
    GetConfig (GetConfigContents okSetConfigEnv.homedir
        (SetConfig okSetConfigEnv emptyFs exampleConfig).2)
      = ({ exampleConfig with
            DisplayedColumns :=
              if exampleConfig.DisplayedColumns.isEmpty then defaultDisplayedColumns
              else exampleConfig.DisplayedColumns
            TimestampFormat :=
              if exampleConfig.TimestampFormat = "" then defaultTimestampFormat
              else exampleConfig.TimestampFormat }, none) :=
  setConfig_then_getConfig_roundtrip okSetConfigEnv emptyFs exampleConfig
    "/home/user" rfl rfl rfl rfl

/-- C7: `InitConfig` persists a zero-valued record when the configuration
file does not exist, succeeds without modifying anything when it exists,
and returns the underlying error when the existence check fails for any
other reason. -/
theorem initConfig_cases (env : SetConfigEnv) (fs : Fs) (hd : String)
    (hh : env.homedir = .ok hd) :
    (env.mkdirErr = none → env.writeErr = none → env.renameErr = none →
       (InitConfig env .notExist fs).1 = .ok () ∧
       Fs.read (InitConfig env .notExist fs).2 (configPath hd)
         = some (marshalClientConfig zeroClientConfig)) ∧
    InitConfig env .found fs = (.ok (), fs) ∧
    (∀ e, InitConfig env (.statError e) fs = (.error e, fs)) := by
  obtain ⟨eh, em, ew, et, er, eu⟩ := env
  obtain rfl : eh = .ok hd := hh
  refine ⟨?_, rfl, fun e => rfl⟩
  intro hm hw hr
  exact setConfig_ok ⟨.ok hd, em, ew, et, er, eu⟩ fs zeroClientConfig hd rfl hm hw hr

/-- Witness for C7, at an all-successful environment and the empty
filesystem. -/
theorem initConfig_cases_witness :
    (okSetConfigEnv.mkdirErr = none → okSetConfigEnv.writeErr = none →
       okSetConfigEnv.renameErr = none →
       (InitConfig okSetConfigEnv .notExist emptyFs).1 = .ok () ∧
       Fs.read (InitConfig okSetConfigEnv .notExist emptyFs).2
           (configPath "/home/user")
         = some (marshalClientConfig zeroClientConfig)) ∧
    InitConfig okSetConfigEnv .found emptyFs = (.ok (), emptyFs) ∧
    (∀ e, InitConfig okSetConfigEnv (.statError e) emptyFs = (.error e, emptyFs)) :=
  initConfig_cases okSetConfigEnv emptyFs "/home/user" rfl

/-- Counterexample to C2 as stated: the zero record parses successfully
and has empty `DisplayedColumns`, yet the loaded record's
`DisplayedColumns` is not the list the claim spells out — the code's
fifth default column is "Exit Code" (with a space), not "ExitCode". -/
theorem getConfig_default_columns_ne_spec :
    decodeClientConfig (encodeClientConfig zeroClientConfig)
      = some zeroClientConfig ∧
    zeroClientConfig.DisplayedColumns = [] ∧
    (GetConfig (.ok (.json (encodeClientConfig zeroClientConfig)))).1.DisplayedColumns
      ≠ specDefaultDisplayedColumns := by
  refine ⟨rfl, rfl, ?_⟩
  decide

/-- C2 (amended: the fifth default column is "Exit Code", with a space):
for every on-disk configuration that parses successfully, `GetConfig`
succeeds with non-empty `DisplayedColumns` and `TimestampFormat`; an
absent/empty stored `DisplayedColumns` becomes the six-element list
Hostname, CWD, Timestamp, Runtime, Exit Code, Command; an empty stored
`TimestampFormat` becomes the fixed default pattern; all non-empty stored
values are returned unchanged. -/
theorem getConfig_fills_defaults (j : Json) (stored : ClientConfig)
    (h : decodeClientConfig j = some stored) :
    (GetConfig (.ok (.json j))).2 = none ∧
    (GetConfig (.ok (.json j))).1.DisplayedColumns ≠ [] ∧
    (GetConfig (.ok (.json j))).1.TimestampFormat ≠ "" ∧
    (stored.DisplayedColumns = [] →
       (GetConfig (.ok (.json j))).1.DisplayedColumns = defaultDisplayedColumns) ∧
    (stored.DisplayedColumns ≠ [] →
       (GetConfig (.ok (.json j))).1.DisplayedColumns = stored.DisplayedColumns) ∧
    (stored.TimestampFormat = "" →
       (GetConfig (.ok (.json j))).1.TimestampFormat = defaultTimestampFormat) ∧
    (stored.TimestampFormat ≠ "" →
       (GetConfig (.ok (.json j))).1.TimestampFormat = stored.TimestampFormat) ∧
    (GetConfig (.ok (.json j))).1.UserSecret = stored.UserSecret ∧
    (GetConfig (.ok (.json j))).1.IsEnabled = stored.IsEnabled ∧
    (GetConfig (.ok (.json j))).1.DeviceId = stored.DeviceId ∧
    (GetConfig (.ok (.json j))).1.LastSavedHistoryLine = stored.LastSavedHistoryLine ∧
    (GetConfig (.ok (.json j))).1.HaveMissedUploads = stored.HaveMissedUploads ∧
    (GetConfig (.ok (.json j))).1.MissedUploadTimestamp = stored.MissedUploadTimestamp ∧
    (GetConfig (.ok (.json j))).1.HaveCompletedInitialImport
      = stored.HaveCompletedInitialImport ∧
    (GetConfig (.ok (.json j))).1.ControlRSearchEnabled = stored.ControlRSearchEnabled ∧
    (GetConfig (.ok (.json j))).1.CustomColumns = stored.CustomColumns ∧
    (GetConfig (.ok (.json j))).1.IsOffline = stored.IsOffline ∧
    (GetConfig (.ok (.json j))).1.FilterDuplicateCommands
      = stored.FilterDuplicateCommands := by
  rw [getConfig_ok_eq j stored h]
  rcases hcol : stored.DisplayedColumns with _ | ⟨a, tl⟩ <;>
    by_cases ht : stored.TimestampFormat = "" <;>
      simp [hcol, ht, defaultDisplayedColumns, defaultTimestampFormat]

/-- Witness for C2's amended theorem, at the zero record. -/
theorem getConfig_fills_defaults_witness :
    (GetConfig (.ok (.json (encodeClientConfig zeroClientConfig)))).2 = none ∧
    (GetConfig (.ok (.json (encodeClientConfig zeroClientConfig)))).1.DisplayedColumns ≠ [] ∧
    (GetConfig (.ok (.json (encodeClientConfig zeroClientConfig)))).1.TimestampFormat ≠ "" ∧
    (zeroClientConfig.DisplayedColumns = [] →
       (GetConfig (.ok (.json (encodeClientConfig zeroClientConfig)))).1.DisplayedColumns
         = defaultDisplayedColumns) ∧
    (zeroClientConfig.DisplayedColumns ≠ [] →
       (GetConfig (.ok (.json (encodeClientConfig zeroClientConfig)))).1.DisplayedColumns
         = zeroClientConfig.DisplayedColumns) ∧
    (zeroClientConfig.TimestampFormat = "" →
       (GetConfig (.ok (.json (encodeClientConfig zeroClientConfig)))).1.TimestampFormat
         = defaultTimestampFormat) ∧
    (zeroClientConfig.TimestampFormat ≠ "" →
       (GetConfig (.ok (.json (encodeClientConfig zeroClientConfig)))).1.TimestampFormat
         = zeroClientConfig.TimestampFormat) ∧
    (GetConfig (.ok (.json (encodeClientConfig zeroClientConfig)))).1.UserSecret
      = zeroClientConfig.UserSecret ∧
    (GetConfig (.ok (.json (encodeClientConfig zeroClientConfig)))).1.IsEnabled
      = zeroClientConfig.IsEnabled ∧
    (GetConfig (.ok (.json (encodeClientConfig zeroClientConfig)))).1.DeviceId
      = zeroClientConfig.DeviceId ∧
    (GetConfig (.ok (.json (encodeClientConfig zeroClientConfig)))).1.LastSavedHistoryLine
      = zeroClientConfig.LastSavedHistoryLine ∧
    (GetConfig (.ok (.json (encodeClientConfig zeroClientConfig)))).1.HaveMissedUploads
      = zeroClientConfig.HaveMissedUploads ∧
    (GetConfig (.ok (.json (encodeClientConfig zeroClientConfig)))).1.MissedUploadTimestamp
      = zeroClientConfig.MissedUploadTimestamp ∧
    (GetConfig (.ok (.json (encodeClientConfig zeroClientConfig)))).1.HaveCompletedInitialImport
      = zeroClientConfig.HaveCompletedInitialImport ∧
    (GetConfig (.ok (.json (encodeClientConfig zeroClientConfig)))).1.ControlRSearchEnabled
      = zeroClientConfig.ControlRSearchEnabled ∧
    (GetConfig (.ok (.json (encodeClientConfig zeroClientConfig)))).1.CustomColumns
      = zeroClientConfig.CustomColumns ∧
    (GetConfig (.ok (.json (encodeClientConfig zeroClientConfig)))).1.IsOffline
      = zeroClientConfig.IsOffline ∧
    (GetConfig (.ok (.json (encodeClientConfig zeroClientConfig)))).1.FilterDuplicateCommands
      = zeroClientConfig.FilterDuplicateCommands :=
  getConfig_fills_defaults (encodeClientConfig zeroClientConfig) zeroClientConfig
    (decode_encode zeroClientConfig)

/-- Counterexample to C3 as stated: with every call succeeding except
the schema migration, `OpenLocalSqliteDb` still returns a handle, not an
error — the migration's result is discarded at hctx.go line 110. -/
theorem openLocalSqliteDb_swallows_migrate_failure :
    migrateFailEnv.migrateErr = some "migration failed" ∧
    (OpenLocalSqliteDb migrateFailEnv emptyDbState).1
      = .ok { dsnPath := "/home/user/.hishtory/hishtory.db" } :=
  ⟨rfl, rfl⟩

/-- C3 (amended: only the connection open, the underlying-handle fetch,
the liveness ping, and the preceding home-directory and directory-
creation steps propagate failures; the schema migration's and the index
creation's results are discarded): `OpenLocalSqliteDb` returns an error
exactly when one of the propagating steps fails. -/
theorem openLocalSqliteDb_error_propagation (env : DbEnv) (st : DbState) :
    ((∃ e, env.homedir = .error e) ∨ env.mkdirErr ≠ none ∨
      env.openErr ≠ none ∨ env.dbErr ≠ none ∨ env.pingErr ≠ none)
      ↔ (∃ e, (OpenLocalSqliteDb env st).1 = .error e) := by
  obtain ⟨eh, em, eo, ed, ep, eg, ei⟩ := env
  cases eh <;> cases em <;> cases eo <;> cases ed <;> cases ep <;>
    simp [OpenLocalSqliteDb]

/-- C5: layering a value over a carrier never mutates the parent — for
each of the three kinds, both children built from the same parent return
their own value, and the parent still has no binding. -/
theorem carrier_isolation (c0 : Context) (v1 v2 : ClientConfig)
    (d1 d2 : DbHandle) (s1 s2 : String) :
    (Context.value c0 contextConfigKey = none →
       GetConf (WithConf c0 v1) = some v1 ∧
       GetConf (WithConf c0 v2) = some v2 ∧ GetConf c0 = none) ∧
    (Context.value c0 contextDBKey = none →
       GetDb (WithDb c0 d1) = some d1 ∧
       GetDb (WithDb c0 d2) = some d2 ∧ GetDb c0 = none) ∧
    (Context.value c0 contextHomedirKey = none →
       GetHome (WithHome c0 s1) = some s1 ∧
       GetHome (WithHome c0 s2) = some s2 ∧ GetHome c0 = none) := by
  refine ⟨fun h => ⟨?_, ?_, ?_⟩, fun h => ⟨?_, ?_, ?_⟩, fun h => ⟨?_, ?_, ?_⟩⟩
  · simp [GetConf, WithConf, Context.value]
  · simp [GetConf, WithConf, Context.value]
  · simp [GetConf, h]
  · simp [GetDb, WithDb, Context.value]
  · simp [GetDb, WithDb, Context.value]
  · simp [GetDb, h]
  · simp [GetHome, WithHome, Context.value]
  · simp [GetHome, WithHome, Context.value]
  · simp [GetHome, h]

/-- Witness for C5, at the background carrier and concrete values of
each kind. -/
theorem carrier_isolation_witness :
    (GetConf (WithConf .background zeroClientConfig) = some zeroClientConfig ∧
     GetConf (WithConf .background exampleConfig) = some exampleConfig ∧
     GetConf .background = none) ∧
    (GetDb (WithDb .background { dsnPath := "a" }) = some { dsnPath := "a" } ∧
     GetDb (WithDb .background { dsnPath := "b" }) = some { dsnPath := "b" } ∧
     GetDb .background = none) ∧
    (GetHome (WithHome .background "/home/u1") = some "/home/u1" ∧
     GetHome (WithHome .background "/home/u2") = some "/home/u2" ∧
     GetHome .background = none) :=
  let t := carrier_isolation .background zeroClientConfig exampleConfig
    { dsnPath := "a" } { dsnPath := "b" } "/home/u1" "/home/u2"
  ⟨t.1 rfl, t.2.1 rfl, t.2.2 rfl⟩

/-- C6: with every system call succeeding, running `OpenLocalSqliteDb`
twice in sequence on a fresh datastore succeeds both times, the second
run leaves the state unchanged, and exactly one end-time index exists at
the end. -/
theorem openLocalSqliteDb_idempotent (env1 env2 : DbEnv) (hd1 hd2 : String)
    (hh1 : env1.homedir = .ok hd1) (hm1 : env1.mkdirErr = none)
    (ho1 : env1.openErr = none) (hdb1 : env1.dbErr = none)
    (hp1 : env1.pingErr = none) (hg1 : env1.migrateErr = none)
    (hi1 : env1.indexErr = none)
    (hh2 : env2.homedir = .ok hd2) (hm2 : env2.mkdirErr = none)
    (ho2 : env2.openErr = none) (hdb2 : env2.dbErr = none)
    (hp2 : env2.pingErr = none) (hg2 : env2.migrateErr = none)
    (hi2 : env2.indexErr = none) :
    (∃ h, (OpenLocalSqliteDb env1 emptyDbState).1 = .ok h) ∧
    (∃ h, (OpenLocalSqliteDb env2 (OpenLocalSqliteDb env1 emptyDbState).2).1
       = .ok h) ∧
    (OpenLocalSqliteDb env2 (OpenLocalSqliteDb env1 emptyDbState).2).2
      = (OpenLocalSqliteDb env1 emptyDbState).2 ∧
    (OpenLocalSqliteDb env2 (OpenLocalSqliteDb env1 emptyDbState).2).2.indexes
      = ["end_time_index"] := by
  obtain ⟨eh1, em1, eo1, ed1, ep1, eg1, ei1⟩ := env1
  obtain ⟨eh2, em2, eo2, ed2, ep2, eg2, ei2⟩ := env2
  obtain rfl : eh1 = .ok hd1 := hh1
  obtain rfl : em1 = none := hm1
  obtain rfl : eo1 = none := ho1
  obtain rfl : ed1 = none := hdb1
  obtain rfl : ep1 = none := hp1
  obtain rfl : eg1 = none := hg1
  obtain rfl : ei1 = none := hi1
  obtain rfl : eh2 = .ok hd2 := hh2
  obtain rfl : em2 = none := hm2
  obtain rfl : eo2 = none := ho2
  obtain rfl : ed2 = none := hdb2
  obtain rfl : ep2 = none := hp2
  obtain rfl : eg2 = none := hg2
  obtain rfl : ei2 = none := hi2
  exact ⟨⟨_, rfl⟩, ⟨_, rfl⟩, rfl, rfl⟩

/-- Witness for C6, at an all-successful environment used for both
runs. -/
theorem openLocalSqliteDb_idempotent_witness :
    (∃ h, (OpenLocalSqliteDb okDbEnv emptyDbState).1 = .ok h) ∧
    (∃ h, (OpenLocalSqliteDb okDbEnv (OpenLocalSqliteDb okDbEnv emptyDbState).2).1
       = .ok h) ∧
    (OpenLocalSqliteDb okDbEnv (OpenLocalSqliteDb okDbEnv emptyDbState).2).2
      = (OpenLocalSqliteDb okDbEnv emptyDbState).2 ∧
    (OpenLocalSqliteDb okDbEnv (OpenLocalSqliteDb okDbEnv emptyDbState).2).2.indexes
      = ["end_time_index"] :=
  openLocalSqliteDb_idempotent okDbEnv okDbEnv "/home/user" "/home/user"
    rfl rfl rfl rfl rfl rfl rfl rfl rfl rfl rfl rfl rfl rfl

/-- C9: whenever `GetConfig` returns a non-nil error, the record it
returns alongside the error is the zero-valued `ClientConfig`. -/
theorem getConfig_error_returns_zero (read : Except String FileContent)
    (e : String) (h : (GetConfig read).2 = some e) :
    (GetConfig read).1 = zeroClientConfig := by
  cases read with
  | error e2 => rfl
  | ok dat =>
    cases hu : unmarshalConfig dat with
    | error e2 => simp [GetConfig, hu]
    | ok c =>
      exfalso
      simp [GetConfig, hu] at h

/-- Witness for C9, at a failing read. -/
theorem getConfig_error_returns_zero_witness :
    (GetConfig (.error "read failed")).2 = some "read failed" ∧
    (GetConfig (.error "read failed")).1 = zeroClientConfig :=
  ⟨rfl, getConfig_error_returns_zero (.error "read failed") "read failed" rfl⟩

/-- C10: the log sink is configured to write to `hishtory.log` under the
tool's directory in the user's home, with 1 MB max size, 10 max backups,
30 days max age, RFC3339 full timestamps, at Info level. -/
theorem getLogger_configuration (homedir : String) :
    (buildLogger homedir).output.filename
      = pathJoin (pathJoin homedir GetHishtoryPath) "hishtory.log" ∧
    (buildLogger homedir).output.maxSizeMb = 1 ∧
    (buildLogger homedir).output.maxBackups = 10 ∧
    (buildLogger homedir).output.maxAgeDays = 30 ∧
    (buildLogger homedir).formatter.timestampFormat = timeRFC3339 ∧
    (buildLogger homedir).formatter.fullTimestamp = true ∧
    (buildLogger homedir).level = .infoLevel :=
  ⟨rfl, rfl, rfl, rfl, rfl, rfl, rfl⟩

end Hctx
